import Mathlib

/-!
Shallow embedding of the weather-alerts service (Rust sources under `src/`).

The data model structs live in `models.rs`, which is referenced by the
sources but not present under `src/`; their fields are modelled from the
spec (§3) together with how every present source file uses them
(`check_alert_conditions`, `db.rs` SQL column lists, `weather.rs` response
mapping).  All logic (`main.rs`, `db.rs`, `handlers.rs`, `weather.rs`) is
translated from the source files themselves.

Floating-point temperatures (`f64` in Rust) are embedded as `Rat`; every
numeric value appearing in the claims is exact in both representations.
-/

deriving instance DecidableEq for Except

namespace WA

/-- Model of Rust `str::to_lowercase` (ASCII-faithful; the condition strings
the code compares are ASCII). -/
def strToLower (s : String) : String := String.mk (s.data.map Char.toLower)

/-- Model of SQL `UPPER` / Rust uppercasing (ASCII-faithful). -/
def strToUpper (s : String) : String := String.mk (s.data.map Char.toUpper)

/-- `chMatchHead hay pat` is true when `pat` occurs at the very start of `hay`. -/
def chMatchHead : List Char → List Char → Bool
  | _, [] => true
  | [], _ :: _ => false
  | h :: hs, p :: ps => h == p && chMatchHead hs ps

/-- `chHasSub hay pat` is true when `pat` occurs contiguously anywhere in `hay`. -/
def chHasSub : List Char → List Char → Bool
  | [], pat => chMatchHead [] pat
  | h :: hs, pat => chMatchHead (h :: hs) pat || chHasSub hs pat

/-- Model of Rust `str::contains` (substring search). -/
def strContains (s sub : String) : Bool := chHasSub s.data sub.data

/-- Model of Rust `str::starts_with`. -/
def strBegins (s pre : String) : Bool := chMatchHead s.data pre.data

/-- Modelled from the spec (§3) and field usage, since `models.rs` is missing
from `src/`: a user's alert preferences (`user_preferences` row). -/
structure UserPreferences where
  min_temp : Option Int
  max_temp : Option Int
  alert_on_rain : Bool
  alert_on_snow : Bool
  alert_on_storm : Bool
  deriving Repr, DecidableEq

/-- Modelled from the spec (§3) and field usage, since `models.rs` is missing
from `src/`: one weather observation (`weather_data` row).  The generated
`id` and wall-clock `fetched_at` are irrelevant to every claim and omitted. -/
structure WeatherData where
  city : String
  country : String
  temperature : Rat
  feels_like : Rat
  conditions : String
  description : String
  humidity : Int
  wind_speed : Rat
  pressure : Int
  deriving Repr, DecidableEq

/-- Modelled from the spec (§3), since `models.rs` is missing from `src/`:
a registered user (`users` row); the opaque UUID is modelled as a `Nat`. -/
structure User where
  id : Nat
  email : String
  city : String
  country : String
  deriving Repr, DecidableEq

/-- A `(city, country)` pair of the fan-out set (`db.rs` `CityInfo`). -/
structure CityInfo where
  city : String
  country : String
  deriving Repr, DecidableEq

/-- Modelled from the spec (§4.1) and serde usage, since `models.rs` is
missing from `src/`: the partial preferences patch.  serde deserialises both
an absent field and an explicit `null` to `none`. -/
structure UpdatePreferencesRequest where
  min_temp : Option Int
  max_temp : Option Int
  alert_on_rain : Option Bool
  alert_on_snow : Option Bool
  alert_on_storm : Option Bool
  deriving Repr, DecidableEq

/-- Modelled from the spec (§4.1), since `models.rs` is missing from `src/`:
the registration request body. -/
structure CreateUserRequest where
  email : String
  city : String
  country : String
  deriving Repr, DecidableEq

/-- One-decimal formatting of a rational; agrees with Rust's `{:.1}` on every
value that is exact in tenths (all values in this development are). -/
def fmt1 (q : Rat) : String :=
  let t : Int := Int.fdiv (20 * q.num + (q.den : Int)) (2 * (q.den : Int))
  let sign : String := if t < 0 then "-" else ""
  let a : Nat := t.natAbs
  sign ++ toString (a / 10) ++ "." ++ toString (a % 10)

/-- The high-temperature alert message of `check_alert_conditions`. -/
def highTempMsg (temp : Rat) (mx : Int) : String :=
  "🌡️ High temperature alert! Current: " ++ fmt1 temp ++ "°C (Your limit: " ++
    toString mx ++ "°C)"

/-- The low-temperature alert message of `check_alert_conditions`. -/
def lowTempMsg (temp : Rat) (mn : Int) : String :=
  "🥶 Low temperature alert! Current: " ++ fmt1 temp ++ "°C (Your limit: " ++
    toString mn ++ "°C)"

/-- The rain alert message of `check_alert_conditions`. -/
def rainMsg (conditions : String) : String :=
  "☔ Rain alert! Current conditions: " ++ conditions

/-- The snow alert message of `check_alert_conditions`. -/
def snowMsg (conditions : String) : String :=
  "❄️ Snow alert! Current conditions: " ++ conditions

/-- The storm alert message of `check_alert_conditions`. -/
def stormMsg (conditions : String) : String :=
  "⚡ Storm alert! Current conditions: " ++ conditions

/-- The tail of `check_alert_conditions` (`main.rs` lines 272-284): the three
categorical rules, tried in order rain, snow, storm. -/
def checkCategorical (w : WeatherData) (p : UserPreferences) (conditions : String) :
    Option String :=
  if p.alert_on_rain && strContains conditions "rain" then some (rainMsg w.conditions)
  else if p.alert_on_snow && strContains conditions "snow" then some (snowMsg w.conditions)
  else if p.alert_on_storm &&
      (strContains conditions "storm" || strContains conditions "thunder") then
    some (stormMsg w.conditions)
  else none

/-- The `min_temp` rule of `check_alert_conditions` (`main.rs` lines 263-270),
falling through to the categorical rules. -/
def checkMinTemp (w : WeatherData) (p : UserPreferences) (temp : Rat)
    (conditions : String) : Option String :=
  match p.min_temp with
  | some mn =>
    if temp < (mn : Rat) then some (lowTempMsg temp mn)
    else checkCategorical w p conditions
  | none => checkCategorical w p conditions

/-- `check_alert_conditions` (`main.rs` lines 247-285): sequential rules with
early return, translated as a fall-through chain. -/
def check_alert_conditions (w : WeatherData) (p : UserPreferences) : Option String :=
  let temp := w.temperature
  let conditions := strToLower w.conditions
  match p.max_temp with
  | some mx =>
    if temp > (mx : Rat) then some (highTempMsg temp mx)
    else checkMinTemp w p temp conditions
  | none => checkMinTemp w p temp conditions

/-- Guard of spec rule 1 (§4.4): `max_temp` set and temperature above it. -/
def maxRuleFires (obs : WeatherData) (prefs : UserPreferences) : Bool :=
  match prefs.max_temp with
  | some mx => decide (obs.temperature > (mx : Rat))
  | none => false

/-- Guard of spec rule 2 (§4.4): `min_temp` set and temperature below it. -/
def minRuleFires (obs : WeatherData) (prefs : UserPreferences) : Bool :=
  match prefs.min_temp with
  | some mn => decide (obs.temperature < (mn : Rat))
  | none => false

/-- Guard of spec rule 3 (§4.4): rain flag and lowercased condition has "rain". -/
def rainRuleFires (obs : WeatherData) (prefs : UserPreferences) : Bool :=
  prefs.alert_on_rain && strContains (strToLower obs.conditions) "rain"

/-- Guard of spec rule 4 (§4.4): snow flag and lowercased condition has "snow". -/
def snowRuleFires (obs : WeatherData) (prefs : UserPreferences) : Bool :=
  prefs.alert_on_snow && strContains (strToLower obs.conditions) "snow"

/-- Guard of spec rule 5 (§4.4): storm flag and lowercased condition has
"storm" or "thunder". -/
def stormRuleFires (obs : WeatherData) (prefs : UserPreferences) : Bool :=
  prefs.alert_on_storm &&
    (strContains (strToLower obs.conditions) "storm" ||
      strContains (strToLower obs.conditions) "thunder")

/-- Spec-side evaluator, written from the words of §4.4 (fixed rule order with
short-circuit) for the refinement comparison of claim C3. -/
def evaluateSpec (obs : WeatherData) (prefs : UserPreferences) : Option String :=
  if maxRuleFires obs prefs then some (highTempMsg obs.temperature (prefs.max_temp.getD 0))
  else if minRuleFires obs prefs then some (lowTempMsg obs.temperature (prefs.min_temp.getD 0))
  else if rainRuleFires obs prefs then some (rainMsg obs.conditions)
  else if snowRuleFires obs prefs then some (snowMsg obs.conditions)
  else if stormRuleFires obs prefs then some (stormMsg obs.conditions)
  else none

/-- Scenario S1 observation: 32.0 °C, conditions "Rain". -/
def s1Obs : WeatherData :=
  { city := "London", country := "GB", temperature := 32, feels_like := 32,
    conditions := "Rain", description := "light rain", humidity := 80,
    wind_speed := 3, pressure := 1012 }

/-- Scenario S1 preferences: `max_temp` 30 and `alert_on_rain` set. -/
def s1Prefs : UserPreferences :=
  { min_temp := none, max_temp := some 30, alert_on_rain := true,
    alert_on_snow := false, alert_on_storm := false }

/-- Model of `sqlx::Error` as far as the code distinguishes it: `fetch_one`
on an empty result set yields `RowNotFound`; every other database failure is
collapsed into `Other`. -/
inductive SqlxError where
  | RowNotFound
  | Other
  deriving Repr, DecidableEq

/-- `AppError` (`error.rs` lines 6-17); the variants the embedded code can
produce.  `Database` wraps the sqlx error like `From<sqlx::Error>` does. -/
inductive AppError where
  | Database (e : SqlxError)
  | WeatherApi (msg : String)
  | Email (msg : String)
  | NotFound (msg : String)
  | Conflict (msg : String)
  | Validation (msg : String)
  deriving Repr, DecidableEq

/-- `ResponseError::status_code` (`error.rs` lines 53-60): `NotFound` → 404,
`Conflict` → 409, `Validation` → 400, everything else → 500. -/
def statusCode : AppError → Nat
  | .NotFound _ => 404
  | .Conflict _ => 409
  | .Validation _ => 400
  | _ => 500

/-- The `user_preferences` table, keyed by `user_id` (UNIQUE per schema). -/
abbrev PrefsTable := List (Nat × UserPreferences)

/-- Row lookup `SELECT * FROM user_preferences WHERE user_id = $1`. -/
def lookupPrefs (tbl : PrefsTable) (uid : Nat) : Option UserPreferences :=
  (tbl.find? (fun r => r.1 == uid)).map (fun r => r.2)

/-- `get_user_preferences` (`db.rs` lines 193-204): `fetch_optional`. -/
def get_user_preferences (tbl : PrefsTable) (uid : Nat) : Option UserPreferences :=
  lookupPrefs tbl uid

/-- The SET clause of `update_user_preferences` (`db.rs` lines 212-220): each
column is `COALESCE(bound-parameter, old-column)`. -/
def applyPatch (req : UpdatePreferencesRequest) (p : UserPreferences) :
    UserPreferences :=
  { min_temp := match req.min_temp with | some v => some v | none => p.min_temp,
    max_temp := match req.max_temp with | some v => some v | none => p.max_temp,
    alert_on_rain := req.alert_on_rain.getD p.alert_on_rain,
    alert_on_snow := req.alert_on_snow.getD p.alert_on_snow,
    alert_on_storm := req.alert_on_storm.getD p.alert_on_storm }

/-- `update_user_preferences` (`db.rs` lines 206-236): `UPDATE ... WHERE
user_id = $1 RETURNING *` run through `fetch_one`, so a missing row surfaces
as `sqlx::Error::RowNotFound` wrapped in `AppError::Database`. -/
def update_user_preferences (tbl : PrefsTable) (uid : Nat)
    (req : UpdatePreferencesRequest) : Except AppError (UserPreferences × PrefsTable) :=
  match lookupPrefs tbl uid with
  | none => .error (.Database .RowNotFound)
  | some p =>
    let p' := applyPatch req p
    .ok (p', tbl.map (fun r => if r.1 == uid then (uid, p') else r))

/-- The HTTP status the `update_preferences` handler (`handlers.rs` lines
113-127) produces: 200 on success, otherwise `status_code` of the error. -/
def update_preferences_status (tbl : PrefsTable) (uid : Nat)
    (req : UpdatePreferencesRequest) : Nat :=
  match update_user_preferences tbl uid req with
  | .ok _ => 200
  | .error e => statusCode e

/-- The database state the user-facing operations touch. -/
structure DbState where
  users : List User
  prefs : PrefsTable
  deriving Repr, DecidableEq

/-- The all-default preferences row inserted by `create_user`
(`INSERT INTO user_preferences (user_id) VALUES ($1)` with schema defaults). -/
def defaultPreferences : UserPreferences :=
  { min_temp := none, max_temp := none, alert_on_rain := false,
    alert_on_snow := false, alert_on_storm := false }

/-- `get_user_by_email` (`db.rs` lines 141-152): `WHERE email = $1`, an exact
(case-sensitive) comparison. -/
def get_user_by_email (users : List User) (email : String) : Option User :=
  users.find? (fun u => u.email == email)

/-- `Database::create_user` (`db.rs` lines 99-126): two separate statements on
the pool with no transaction.  The first `INSERT INTO users` fails on an
exact-duplicate email (UNIQUE constraint); `insertPrefsOk` injects the fate
of the second `INSERT INTO user_preferences` — when it fails, the user row
already inserted by the first statement remains. -/
def db_create_user (insertPrefsOk : Bool) (newId : Nat) (st : DbState)
    (req : CreateUserRequest) : Except AppError User × DbState :=
  if st.users.any (fun u => u.email == req.email) then
    (.error (.Database .Other), st)
  else
    let user : User :=
      { id := newId, email := req.email, city := req.city,
        country := strToUpper req.country }
    let st1 : DbState := { st with users := st.users ++ [user] }
    if insertPrefsOk then
      (.ok user, { st1 with prefs := st1.prefs ++ [(newId, defaultPreferences)] })
    else
      (.error (.Database .Other), st1)

/-- The `create_user` handler (`handlers.rs` lines 45-75): validate, look the
email up with `get_user_by_email` (exact match), return `Conflict` when a row
was found, otherwise insert.  `validate` stands for `req.validate()` (the
`validator` derive lives in the missing `models.rs`); the spawned welcome
email never touches the result. -/
def handlers_create_user (validate : CreateUserRequest → Option String)
    (insertPrefsOk : Bool) (newId : Nat) (st : DbState) (req : CreateUserRequest) :
    Except AppError User × DbState :=
  match validate req with
  | some msg => (.error (.Validation msg), st)
  | none =>
    match get_user_by_email st.users req.email with
    | some _ => (.error (.Conflict "User with this email already exists"), st)
    | none => db_create_user insertPrefsOk newId st req

/-- Lexicographic comparison of character lists by code point. -/
def chLe : List Char → List Char → Bool
  | [], _ => true
  | _ :: _, [] => false
  | a :: as, b :: bs =>
    if a.toNat < b.toNat then true
    else if b.toNat < a.toNat then false
    else chLe as bs

/-- Lexicographic order on strings by code point, modelling the `ORDER BY`
comparison ("C" collation). -/
def cityLe (a b : String) : Bool := chLe a.data b.data

/-- Ordered insertion by city name, for the `ORDER BY city` model. -/
def insertCity (c : CityInfo) : List CityInfo → List CityInfo
  | [] => [c]
  | d :: ds => if cityLe c.city d.city then c :: d :: ds else d :: insertCity c ds

/-- Insertion sort by city name, modelling `ORDER BY city`. -/
def sortCities : List CityInfo → List CityInfo
  | [] => []
  | c :: cs => insertCity c (sortCities cs)

/-- `get_all_user_cities` (`db.rs` lines 179-190): `SELECT DISTINCT city,
country FROM users ORDER BY city`.  `DISTINCT` on `varchar` compares exact
values, modelled by `List.dedup`; `ORDER BY city` is modelled by sorting
with the lexicographic order on strings. -/
def get_all_user_cities (users : List User) : List CityInfo :=
  sortCities ((users.map (fun u => ({ city := u.city, country := u.country } : CityInfo))).dedup)

/-- Modelled from the spec (§6) and field usage, since `models.rs` is missing
from `src/`: the `weather[i]` entries of the provider response. -/
structure OWCondition where
  main : String
  description : String
  deriving Repr, DecidableEq

/-- The `main` object of the provider response. -/
structure OWMain where
  temp : Rat
  feels_like : Rat
  humidity : Int
  pressure : Int
  deriving Repr, DecidableEq

/-- The `sys` object of the provider response. -/
structure OWSys where
  country : String
  deriving Repr, DecidableEq

/-- The `wind` object of the provider response. -/
structure OWWind where
  speed : Rat
  deriving Repr, DecidableEq

/-- The provider response fields consumed by `weather.rs`. -/
structure OpenWeatherResponse where
  name : String
  sys : OWSys
  main : OWMain
  wind : OWWind
  weather : List OWCondition
  deriving Repr, DecidableEq

/-- The response-to-observation mapping of `WeatherClient::get_weather`
(`weather.rs` lines 50-66): city and country come from the provider's `name`
and `sys.country`, not from the requested pair. -/
def mapResponse (resp : OpenWeatherResponse) : WeatherData :=
  { city := resp.name,
    country := resp.sys.country,
    temperature := resp.main.temp,
    feels_like := resp.main.feels_like,
    conditions := ((resp.weather.head?).map (fun w => w.main)).getD "Unknown",
    description := ((resp.weather.head?).map (fun w => w.description)).getD "No description",
    humidity := resp.main.humidity,
    wind_speed := resp.wind.speed,
    pressure := resp.main.pressure }

/-- The collaborators `fetch_and_alert` calls, one field per awaited
operation: `get_all_user_cities`, `WeatherClient::get_weather`,
`store_weather_data`, `get_users_by_city`, `get_user_preferences`,
`send_weather_alert`, `log_alert`.  Each is an oracle fixing the outcome of
the corresponding call. -/
structure Env where
  listCities : Except AppError (List CityInfo)
  fetch : String → String → Except AppError WeatherData
  storeWeather : WeatherData → Except AppError Unit
  usersByCity : String → Except AppError (List User)
  getPrefs : Nat → Except AppError (Option UserPreferences)
  sendAlert : String → String → String → Except AppError Unit
  logAlert : Nat → String → String → Except AppError Unit

/-- Observable effects of one pass, in execution order. -/
inductive Event where
  | fetchFailed (city : String)
  | storedWeather (w : WeatherData)
  | emailSent (email city msg : String)
  | emailFailed (email : String)
  | alertLogged (uid : Nat) (kind msg : String)
  deriving Repr, DecidableEq

/-- The per-user inner loop of `fetch_and_alert` (`main.rs` lines 212-233):
`get_user_preferences` and `log_alert` use `?` (their errors abort the whole
pass), a missing preferences row is skipped by `if let Some`, and a rejected
email is logged and the loop continues. -/
def processCityUsers (env : Env) (w : WeatherData) (city : String) :
    List User → List Event × Option AppError
  | [] => ([], none)
  | u :: rest =>
    match env.getPrefs u.id with
    | .error e => ([], some e)
    | .ok none => processCityUsers env w city rest
    | .ok (some prefs) =>
      match check_alert_conditions w prefs with
      | none => processCityUsers env w city rest
      | some msg =>
        match env.sendAlert u.email city msg with
        | .error _ =>
          ((Event.emailFailed u.email) :: (processCityUsers env w city rest).1,
            (processCityUsers env w city rest).2)
        | .ok _ =>
          match env.logAlert u.id "temperature" msg with
          | .error e => ([Event.emailSent u.email city msg], some e)
          | .ok _ =>
            ((Event.emailSent u.email city msg) ::
              (Event.alertLogged u.id "temperature" msg) ::
              (processCityUsers env w city rest).1,
              (processCityUsers env w city rest).2)

/-- The per-city loop of `fetch_and_alert` (`main.rs` lines 196-242): a fetch
error is logged and the loop continues with the next city; `?` on
`store_weather_data` and `get_users_by_city` aborts the whole pass, handing
back the events already committed and the error. -/
def processCities (env : Env) : List CityInfo → List Event × Option AppError
  | [] => ([], none)
  | c :: rest =>
    match env.fetch c.city c.country with
    | .error _ =>
      ((Event.fetchFailed c.city) :: (processCities env rest).1,
        (processCities env rest).2)
    | .ok w =>
      match env.storeWeather w with
      | .error e => ([], some e)
      | .ok _ =>
        match env.usersByCity c.city with
        | .error e => ([Event.storedWeather w], some e)
        | .ok users =>
          match (processCityUsers env w c.city users).2 with
          | some e =>
            ((Event.storedWeather w) :: (processCityUsers env w c.city users).1,
              some e)
          | none =>
            ((Event.storedWeather w) ::
              ((processCityUsers env w c.city users).1 ++ (processCities env rest).1),
              (processCities env rest).2)

/-- `fetch_and_alert` (`main.rs` lines 187-245): list the fan-out cities
(`?` on failure) and run the per-city loop.  The result is the list of
observable effects in order together with the propagated error, if any. -/
def fetch_and_alert (env : Env) : List Event × Option AppError :=
  match env.listCities with
  | .error e => ([], some e)
  | .ok cities => processCities env cities

/-- Hypothesis of the isolation contract: no Store operation fails during the
pass (the only failures are fetches, rejected emails, missing preference
rows). -/
def storeNeverFails (env : Env) : Prop :=
  (∃ cs, env.listCities = .ok cs) ∧
  (∀ w, env.storeWeather w = .ok ()) ∧
  (∀ c, ∃ us, env.usersByCity c = .ok us) ∧
  (∀ uid, ∃ op, env.getPrefs uid = .ok op) ∧
  (∀ uid k m, env.logAlert uid k m = .ok ())

/-- Fan-out entry for the failing city of the concrete scenarios. -/
def cityA : CityInfo := { city := "A", country := "GB" }

/-- Fan-out entry for the succeeding city of the concrete scenarios. -/
def cityB : CityInfo := { city := "B", country := "GB" }

/-- Observation the provider reports for city A in the concrete scenarios. -/
def wA : WeatherData :=
  { city := "A", country := "GB", temperature := 10, feels_like := 9,
    conditions := "Clouds", description := "overcast clouds", humidity := 70,
    wind_speed := 5, pressure := 1000 }

/-- Observation the provider reports for city B in the concrete scenarios. -/
def wB : WeatherData :=
  { city := "B", country := "GB", temperature := 32, feels_like := 33,
    conditions := "Clear", description := "clear sky", humidity := 40,
    wind_speed := 2, pressure := 1015 }

/-- Preferences with only an upper temperature bound of 30 °C. -/
def prefsMax30 : UserPreferences :=
  { min_temp := none, max_temp := some 30, alert_on_rain := false,
    alert_on_snow := false, alert_on_storm := false }

/-- The single registered user of city B in the concrete scenarios. -/
def alice : User := { id := 1, email := "alice@x.io", city := "B", country := "GB" }

/-- Scenario S5 environment: the fetch for city A fails with a protocol
error, city B succeeds, no Store operation fails, Alice's bound fires. -/
def env1 : Env :=
  { listCities := .ok [cityA, cityB],
    fetch := fun c _ =>
      if c == "A" then .error (.WeatherApi "API returned status 500: boom")
      else .ok wB,
    storeWeather := fun _ => .ok (),
    usersByCity := fun c => .ok (if c == "B" then [alice] else []),
    getPrefs := fun uid => .ok (if uid == 1 then some prefsMax30 else none),
    sendAlert := fun _ _ _ => .ok (),
    logAlert := fun _ _ _ => .ok () }

/-- Environment in which both fetches succeed but `store_weather_data` fails
for city A's observation, while it would succeed for city B's. -/
def env2 : Env :=
  { listCities := .ok [cityA, cityB],
    fetch := fun c _ => if c == "A" then .ok wA else .ok wB,
    storeWeather := fun w =>
      if w.city == "A" then .error (.Database .Other) else .ok (),
    usersByCity := fun _ => .ok [],
    getPrefs := fun _ => .ok none,
    sendAlert := fun _ _ _ => .ok (),
    logAlert := fun _ _ _ => .ok () }

/-- Environment in which `get_users_by_city` fails for the first city while
everything before it succeeded. -/
def env3 : Env :=
  { listCities := .ok [cityA, cityB],
    fetch := fun c _ => if c == "A" then .ok wA else .ok wB,
    storeWeather := fun _ => .ok (),
    usersByCity := fun _ => .error (.Database .Other),
    getPrefs := fun _ => .ok none,
    sendAlert := fun _ _ _ => .ok (),
    logAlert := fun _ _ _ => .ok () }

/-- Environment in which `get_user_preferences` fails for the first user of
the first city while everything before it succeeded. -/
def env4 : Env :=
  { listCities := .ok [cityA, cityB],
    fetch := fun c _ => if c == "A" then .ok wA else .ok wB,
    storeWeather := fun _ => .ok (),
    usersByCity := fun _ => .ok [alice],
    getPrefs := fun _ => .error (.Database .Other),
    sendAlert := fun _ _ _ => .ok (),
    logAlert := fun _ _ _ => .error (.Database .Other) }

/-- Environment in which Alice's alert fires and the email is accepted, but
`log_alert` fails while everything before it succeeded. -/
def env5 : Env :=
  { listCities := .ok [cityB, cityA],
    fetch := fun c _ => if c == "B" then .ok wB else .ok wA,
    storeWeather := fun _ => .ok (),
    usersByCity := fun _ => .ok [alice],
    getPrefs := fun _ => .ok (some prefsMax30),
    sendAlert := fun _ _ _ => .ok (),
    logAlert := fun _ _ _ => .error (.Database .Other) }

/-- A provider response whose reported `name` ("London") differs in casing
from the requested city ("london"). -/
def exResp : OpenWeatherResponse :=
  { name := "London", sys := { country := "GB" },
    main := { temp := 18, feels_like := 17, humidity := 60, pressure := 1015 },
    wind := { speed := 4 },
    weather := [{ main := "Clouds", description := "overcast clouds" }] }

/-- Environment whose fan-out city is the lowercase "london" while the
provider reports "London". -/
def exEnv10 : Env :=
  { listCities := .ok [{ city := "london", country := "GB" }],
    fetch := fun _ _ => .ok (mapResponse exResp),
    storeWeather := fun _ => .ok (),
    usersByCity := fun _ => .ok [],
    getPrefs := fun _ => .ok none,
    sendAlert := fun _ _ _ => .ok (),
    logAlert := fun _ _ _ => .ok () }

theorem check_alert_eq_spec (w : WeatherData) (p : UserPreferences) :
    check_alert_conditions w p = evaluateSpec w p := by
  unfold check_alert_conditions evaluateSpec checkMinTemp checkCategorical
    maxRuleFires minRuleFires rainRuleFires snowRuleFires stormRuleFires
  cases hmx : p.max_temp <;> cases hmn : p.min_temp <;>
    simp only [Option.getD_some, Option.getD_none, decide_eq_true_eq] <;>
    split_ifs <;> simp_all

/-- C3: the alert evaluator applies the fixed rule order with short-circuit of
§4.4 (at most one message, the `Option` result), and on scenario S1
(`max_temp` 30, `alert_on_rain`, 32.0 °C, "Rain") the high-temperature
message fires — it begins with the high-temperature marker, shows "32.0" and
"30", and is not the rain message. -/
theorem check_alert_conditions_rule_order :
    (∀ w p, check_alert_conditions w p = evaluateSpec w p) ∧
    check_alert_conditions s1Obs s1Prefs = some (highTempMsg 32 30) ∧
    strBegins (highTempMsg 32 30) "🌡️ High temperature alert!" = true ∧
    strContains (highTempMsg 32 30) "32.0" = true ∧
    strContains (highTempMsg 32 30) "30" = true ∧
    highTempMsg 32 30 ≠ rainMsg s1Obs.conditions := by
  refine ⟨fun w p => check_alert_eq_spec w p, ?_, ?_, ?_, ?_, ?_⟩ <;> decide

/-- C7 counterexample: with no preferences row for user 1, the update returns
`Database(RowNotFound)` and the handler maps it to HTTP 500, not 404. -/
theorem update_preferences_missing_row_counterexample :
    update_user_preferences ([] : PrefsTable) 1
        ({ min_temp := some 5, max_temp := none, alert_on_rain := none,
           alert_on_snow := none, alert_on_storm := none } : UpdatePreferencesRequest)
      = .error (.Database .RowNotFound) ∧
    update_preferences_status ([] : PrefsTable) 1
        { min_temp := some 5, max_temp := none, alert_on_rain := none,
          alert_on_snow := none, alert_on_storm := none }
      = 500 ∧
    statusCode (.Database .RowNotFound) ≠ 404 := by
  decide

/-- C7 as amended: `update_user_preferences` on a user with no preferences
row fails with `Database(RowNotFound)` (from `fetch_one` on an empty result),
which the API error mapping turns into HTTP 500. -/
theorem update_preferences_missing_row_is_500 (tbl : PrefsTable) (uid : Nat)
    (req : UpdatePreferencesRequest) (h : lookupPrefs tbl uid = none) :
    update_user_preferences tbl uid req = .error (.Database .RowNotFound) ∧
    update_preferences_status tbl uid req = 500 := by
  constructor
  · simp [update_user_preferences, h]
  · simp [update_preferences_status, update_user_preferences, h, statusCode]

/-- Witness for the amended C7 theorem at a concrete empty table. -/
theorem update_preferences_missing_row_is_500_witness :
    update_user_preferences ([] : PrefsTable) 7
        ({ min_temp := none, max_temp := some 1, alert_on_rain := none,
           alert_on_snow := none, alert_on_storm := none } : UpdatePreferencesRequest)
      = .error (.Database .RowNotFound) ∧
    update_preferences_status ([] : PrefsTable) 7
        { min_temp := none, max_temp := some 1, alert_on_rain := none,
          alert_on_snow := none, alert_on_storm := none }
      = 500 :=
  update_preferences_missing_row_is_500 [] 7 _ (by decide)

/-- C8: a partial update keeps every field absent from the patch at exactly
its prior value and sets every present field to the patched value; the row is
replaced by `applyPatch req p` in the table. -/
theorem update_preferences_partial_update (tbl : PrefsTable) (uid : Nat)
    (req : UpdatePreferencesRequest) (p : UserPreferences)
    (h : lookupPrefs tbl uid = some p) :
    update_user_preferences tbl uid req
        = .ok (applyPatch req p,
            tbl.map (fun r => if r.1 == uid then (uid, applyPatch req p) else r)) ∧
    (req.min_temp = none → (applyPatch req p).min_temp = p.min_temp) ∧
    (∀ v, req.min_temp = some v → (applyPatch req p).min_temp = some v) ∧
    (req.max_temp = none → (applyPatch req p).max_temp = p.max_temp) ∧
    (∀ v, req.max_temp = some v → (applyPatch req p).max_temp = some v) ∧
    (req.alert_on_rain = none → (applyPatch req p).alert_on_rain = p.alert_on_rain) ∧
    (∀ b, req.alert_on_rain = some b → (applyPatch req p).alert_on_rain = b) ∧
    (req.alert_on_snow = none → (applyPatch req p).alert_on_snow = p.alert_on_snow) ∧
    (∀ b, req.alert_on_snow = some b → (applyPatch req p).alert_on_snow = b) ∧
    (req.alert_on_storm = none → (applyPatch req p).alert_on_storm = p.alert_on_storm) ∧
    (∀ b, req.alert_on_storm = some b → (applyPatch req p).alert_on_storm = b) := by
  refine ⟨by simp [update_user_preferences, h], ?_, ?_, ?_, ?_, ?_, ?_, ?_, ?_, ?_, ?_⟩ <;>
    first
    | (intro v hv; simp [applyPatch, hv])
    | (intro hv; simp [applyPatch, hv])

/-- Witness for C8 at scenario S6: start `{min 5, max 30, rain}`, patch
`{snow := true}`, obtain `{min 5, max 30, rain, snow}`. -/
theorem update_preferences_partial_update_witness :
    update_user_preferences
        [(1, ({ min_temp := some 5, max_temp := some 30, alert_on_rain := true,
                alert_on_snow := false, alert_on_storm := false } : UserPreferences))] 1
        { min_temp := none, max_temp := none, alert_on_rain := none,
          alert_on_snow := some true, alert_on_storm := none }
      = .ok ({ min_temp := some 5, max_temp := some 30, alert_on_rain := true,
               alert_on_snow := true, alert_on_storm := false },
          [(1, { min_temp := some 5, max_temp := some 30, alert_on_rain := true,
                 alert_on_snow := true, alert_on_storm := false })]) := by
  exact (update_preferences_partial_update
    [(1, { min_temp := some 5, max_temp := some 30, alert_on_rain := true,
           alert_on_snow := false, alert_on_storm := false })] 1
    { min_temp := none, max_temp := none, alert_on_rain := none,
      alert_on_snow := some true, alert_on_storm := none }
    { min_temp := some 5, max_temp := some 30, alert_on_rain := true,
      alert_on_snow := false, alert_on_storm := false }
    (by decide)).1

/-- C9: no patch can clear a set temperature bound — `COALESCE` keeps the
prior value whenever the patch field is absent (and serde maps an explicit
null to the same absent field), so non-null `min_temp`/`max_temp` stay
non-null through every `update_user_preferences`. -/
theorem update_preferences_never_clears_bounds (tbl : PrefsTable) (uid : Nat)
    (req : UpdatePreferencesRequest) (p p' : UserPreferences) (tbl' : PrefsTable)
    (hrow : lookupPrefs tbl uid = some p)
    (hupd : update_user_preferences tbl uid req = .ok (p', tbl')) :
    (p.min_temp.isSome = true → p'.min_temp.isSome = true) ∧
    (p.max_temp.isSome = true → p'.max_temp.isSome = true) := by
  unfold update_user_preferences at hupd
  rw [hrow] at hupd
  simp only [Except.ok.injEq, Prod.mk.injEq] at hupd
  obtain ⟨⟨hp', _⟩, _⟩ := And.intro hupd trivial
  subst hp'
  constructor <;> intro hset
  · cases hm : req.min_temp with
    | none => simpa [applyPatch, hm] using hset
    | some v => simp [applyPatch, hm]
  · cases hm : req.max_temp with
    | none => simpa [applyPatch, hm] using hset
    | some v => simp [applyPatch, hm]

/-- Witness for C9: a patch changing `max_temp` leaves both bounds set. -/
theorem update_preferences_never_clears_bounds_witness :
    ((({ min_temp := some 5, max_temp := some 30, alert_on_rain := true,
         alert_on_snow := false, alert_on_storm := false } : UserPreferences)).min_temp.isSome = true →
      (({ min_temp := some 5, max_temp := some 25, alert_on_rain := true,
          alert_on_snow := false, alert_on_storm := false } : UserPreferences)).min_temp.isSome = true) ∧
    ((({ min_temp := some 5, max_temp := some 30, alert_on_rain := true,
         alert_on_snow := false, alert_on_storm := false } : UserPreferences)).max_temp.isSome = true →
      (({ min_temp := some 5, max_temp := some 25, alert_on_rain := true,
          alert_on_snow := false, alert_on_storm := false } : UserPreferences)).max_temp.isSome = true) :=
  update_preferences_never_clears_bounds
    [(1, { min_temp := some 5, max_temp := some 30, alert_on_rain := true,
           alert_on_snow := false, alert_on_storm := false })] 1
    { min_temp := none, max_temp := some 25, alert_on_rain := none,
      alert_on_snow := none, alert_on_storm := none }
    _ _
    [(1, { min_temp := some 5, max_temp := some 25, alert_on_rain := true,
           alert_on_snow := false, alert_on_storm := false })]
    (by decide) (by decide)

/-- C4: evaluation at the failing input — when the second statement (the
preferences insert) fails after the first succeeded, `create_user` hands back
the error but the user row is already in the table, with no preferences row:
the two inserts are not atomic. -/
theorem create_user_partial_failure_leaves_user_row :
    db_create_user false 1 { users := [], prefs := [] }
        { email := "eve@x.io", city := "Paris", country := "fr" }
      = (.error (.Database .Other),
          { users := [{ id := 1, email := "eve@x.io", city := "Paris", country := "FR" }],
            prefs := [] }) ∧
    (db_create_user false 1 { users := [], prefs := [] }
        { email := "eve@x.io", city := "Paris", country := "fr" }).2.users ≠ [] ∧
    lookupPrefs (db_create_user false 1 { users := [], prefs := [] }
        { email := "eve@x.io", city := "Paris", country := "fr" }).2.prefs 1 = none := by
  decide

/-- C5 counterexample: with "a@b.com" registered, `CreateUser` for
"A@B.com" — the same email up to ASCII case — does not return Conflict: the
exact-match lookup misses and a second user row is inserted. -/
theorem create_user_case_email_counterexample :
    handlers_create_user (fun _ => none) true 2
        { users := [{ id := 1, email := "a@b.com", city := "Paris", country := "FR" }],
          prefs := [(1, defaultPreferences)] }
        { email := "A@B.com", city := "Paris", country := "FR" }
      = (.ok { id := 2, email := "A@B.com", city := "Paris", country := "FR" },
          { users := [{ id := 1, email := "a@b.com", city := "Paris", country := "FR" },
                      { id := 2, email := "A@B.com", city := "Paris", country := "FR" }],
            prefs := [(1, defaultPreferences), (2, defaultPreferences)] }) ∧
    strToLower "A@B.com" = strToLower "a@b.com" ∧
    ("A@B.com" : String) ≠ "a@b.com" := by
  decide

/-- C5 as amended: the duplicate check is exact — when some existing user has
byte-for-byte the same email, `create_user` returns Conflict and leaves the
state unchanged (emails differing only in case are not caught). -/
theorem create_user_conflict_on_exact_email (validate : CreateUserRequest → Option String)
    (insertPrefsOk : Bool) (newId : Nat) (st : DbState) (req : CreateUserRequest)
    (hv : validate req = none)
    (h : ∃ u ∈ st.users, u.email = req.email) :
    handlers_create_user validate insertPrefsOk newId st req
      = (.error (.Conflict "User with this email already exists"), st) := by
  have hsome : (st.users.find? (fun u => u.email == req.email)).isSome := by
    rw [List.find?_isSome]
    obtain ⟨u, hu, he⟩ := h
    exact ⟨u, hu, by simp [he]⟩
  unfold handlers_create_user
  rw [hv]
  simp only [get_user_by_email]
  cases hf : st.users.find? (fun u => u.email == req.email) with
  | none => rw [hf] at hsome; simp at hsome
  | some u0 => rfl

/-- Witness for the amended C5 theorem: an exact duplicate email conflicts
and inserts nothing. -/
theorem create_user_conflict_on_exact_email_witness :
    handlers_create_user (fun _ => none) true 2
        { users := [{ id := 1, email := "a@b.com", city := "Paris", country := "FR" }],
          prefs := [(1, defaultPreferences)] }
        { email := "a@b.com", city := "Berlin", country := "DE" }
      = (.error (.Conflict "User with this email already exists"),
          { users := [{ id := 1, email := "a@b.com", city := "Paris", country := "FR" }],
            prefs := [(1, defaultPreferences)] }) :=
  create_user_conflict_on_exact_email _ true 2 _ _ rfl
    ⟨{ id := 1, email := "a@b.com", city := "Paris", country := "FR" }, by decide, rfl⟩

theorem chLe_cons (a b : Char) (as bs : List Char) :
    chLe (a :: as) (b :: bs) = true ↔
      a.toNat < b.toNat ∨ (a.toNat = b.toNat ∧ chLe as bs = true) := by
  show (if a.toNat < b.toNat then true
    else if b.toNat < a.toNat then false else chLe as bs) = true ↔ _
  by_cases h1 : a.toNat < b.toNat
  · simp [h1]
  · by_cases h2 : b.toNat < a.toNat
    · rw [if_neg h1, if_pos h2]
      constructor
      · intro hx; simp at hx
      · rintro (hx | ⟨hx, _⟩) <;> omega
    · have heq : a.toNat = b.toNat := by omega
      rw [if_neg h1, if_neg h2]
      constructor
      · intro hx; exact Or.inr ⟨heq, hx⟩
      · rintro (hx | ⟨_, hx⟩)
        · exact absurd hx h1
        · exact hx

theorem chLe_total : ∀ as bs : List Char, chLe as bs = true ∨ chLe bs as = true := by
  intro as
  induction as with
  | nil => exact fun bs => Or.inl rfl
  | cons a as ih =>
    intro bs
    cases bs with
    | nil => right; rfl
    | cons b bs' =>
      rcases Nat.lt_trichotomy a.toNat b.toNat with h | h | h
      · left; rw [chLe_cons]; exact Or.inl h
      · rcases ih bs' with hx | hx
        · left; rw [chLe_cons]; exact Or.inr ⟨h, hx⟩
        · right; rw [chLe_cons]; exact Or.inr ⟨h.symm, hx⟩
      · right; rw [chLe_cons]; exact Or.inl h

theorem chLe_trans :
    ∀ as bs cs : List Char,
      chLe as bs = true → chLe bs cs = true → chLe as cs = true := by
  intro as
  induction as with
  | nil => intro bs cs _ _; rfl
  | cons a as ih =>
    intro bs cs h1 h2
    cases bs with
    | nil => simp [chLe] at h1
    | cons b bs' =>
      cases cs with
      | nil => simp [chLe] at h2
      | cons c' cs' =>
        rw [chLe_cons] at h1 h2 ⊢
        rcases h1 with hl | ⟨he, hr⟩ <;> rcases h2 with hl2 | ⟨he2, hr2⟩
        · exact Or.inl (by omega)
        · exact Or.inl (by omega)
        · exact Or.inl (by omega)
        · exact Or.inr ⟨by omega, ih bs' cs' hr hr2⟩

theorem cityLe_total (a b : String) : cityLe a b = true ∨ cityLe b a = true :=
  chLe_total a.data b.data

theorem cityLe_trans (a b c : String) (h1 : cityLe a b = true)
    (h2 : cityLe b c = true) : cityLe a c = true :=
  chLe_trans a.data b.data c.data h1 h2

theorem insertCity_perm (c : CityInfo) :
    ∀ l : List CityInfo, List.Perm (insertCity c l) (c :: l)
  | [] => by simp [insertCity]
  | d :: ds => by
    unfold insertCity
    split
    · exact List.Perm.refl _
    · exact ((insertCity_perm c ds).cons d).trans (List.Perm.swap c d ds)

theorem sortCities_perm : ∀ l : List CityInfo, List.Perm (sortCities l) l
  | [] => List.Perm.refl _
  | c :: cs =>
    ((insertCity_perm c (sortCities cs)).trans ((sortCities_perm cs).cons c))

theorem insertCity_pairwise (c : CityInfo) :
    ∀ l : List CityInfo,
      List.Pairwise (fun a b : CityInfo => cityLe a.city b.city = true) l →
      List.Pairwise (fun a b : CityInfo => cityLe a.city b.city = true) (insertCity c l)
  | [], _ => by simp [insertCity]
  | d :: ds, h => by
    unfold insertCity
    by_cases hc : cityLe c.city d.city = true
    · rw [if_pos hc]
      refine List.Pairwise.cons ?_ h
      intro x hx
      rcases List.mem_cons.mp hx with rfl | hx'
      · exact hc
      · exact cityLe_trans _ _ _ hc ((List.pairwise_cons.mp h).1 x hx')
    · rw [if_neg hc]
      have hdc : cityLe d.city c.city = true := by
        rcases cityLe_total c.city d.city with hx | hx
        · exact absurd hx hc
        · exact hx
      have ih := insertCity_pairwise c ds (List.pairwise_cons.mp h).2
      refine List.Pairwise.cons ?_ ih
      intro x hx
      have hmem := (insertCity_perm c ds).mem_iff.mp hx
      rcases List.mem_cons.mp hmem with rfl | hx'
      · exact hdc
      · exact (List.pairwise_cons.mp h).1 x hx'

theorem sortCities_pairwise :
    ∀ l : List CityInfo,
      List.Pairwise (fun a b : CityInfo => cityLe a.city b.city = true) (sortCities l)
  | [] => List.Pairwise.nil
  | c :: cs => insertCity_pairwise c (sortCities cs) (sortCities_pairwise cs)

/-- C6 counterexample: two users whose cities differ only in case produce two
fan-out entries, so the result is not duplicate-free up to case. -/
theorem get_all_user_cities_case_duplicate_counterexample :
    get_all_user_cities
        [{ id := 1, email := "a@x.io", city := "London", country := "GB" },
         { id := 2, email := "b@x.io", city := "london", country := "GB" }]
      = [{ city := "London", country := "GB" }, { city := "london", country := "GB" }] ∧
    strToLower "London" = strToLower "london" ∧
    ("London" : String) ≠ "london" := by
  decide

/-- C6 as amended: `get_all_user_cities` returns the users' `(city, country)`
pairs sorted by city with exact duplicates removed; pairs differing only in
case remain distinct entries. -/
theorem get_all_user_cities_sorted_exact_distinct (users : List User) :
    List.Pairwise (fun a b : CityInfo => cityLe a.city b.city = true)
      (get_all_user_cities users) ∧
    (get_all_user_cities users).Nodup ∧
    ∀ c : CityInfo,
      c ∈ get_all_user_cities users ↔
        c ∈ users.map (fun u => ({ city := u.city, country := u.country } : CityInfo)) := by
  unfold get_all_user_cities
  refine ⟨sortCities_pairwise _, ?_, ?_⟩
  · exact ((sortCities_perm _).nodup_iff).mpr (List.nodup_dedup _)
  · intro c
    rw [(sortCities_perm _).mem_iff, List.mem_dedup]

/-- C10: the observation built by `get_weather` carries the provider-reported
`name` and `sys.country`; with fan-out city "london" and a provider response
naming it "London", the pipeline persists a row whose city is "London", not
the "london" used for the fan-out and the user lookup. -/
theorem observation_keeps_provider_names :
    (∀ resp, (mapResponse resp).city = resp.name ∧
      (mapResponse resp).country = resp.sys.country) ∧
    exEnv10.listCities = .ok [{ city := "london", country := "GB" }] ∧
    fetch_and_alert exEnv10 = ([Event.storedWeather (mapResponse exResp)], none) ∧
    (mapResponse exResp).city = "London" ∧
    (mapResponse exResp).city ≠ "london" := by
  refine ⟨fun resp => ⟨rfl, rfl⟩, rfl, by decide, by decide, by decide⟩

theorem processCityUsers_ok (env : Env) (w : WeatherData) (city : String)
    (hp : ∀ uid, ∃ op, env.getPrefs uid = .ok op)
    (hl : ∀ uid k m, env.logAlert uid k m = .ok ()) :
    ∀ us : List User,
      (processCityUsers env w city us).2 = none ∧
      ∀ u ∈ us, ∀ p, env.getPrefs u.id = .ok (some p) →
        ∀ msg, check_alert_conditions w p = some msg →
          Event.emailSent u.email city msg ∈ (processCityUsers env w city us).1 ∨
          Event.emailFailed u.email ∈ (processCityUsers env w city us).1 := by
  intro us
  induction us with
  | nil => exact ⟨rfl, by simp⟩
  | cons u rest ih =>
    obtain ⟨op, hop⟩ := hp u.id
    cases op with
    | none =>
      refine ⟨by simpa [processCityUsers, hop] using ih.1, ?_⟩
      intro v hv p hvp msg hmsg
      rcases List.mem_cons.mp hv with rfl | hv'
      · rw [hvp] at hop
        simp at hop
      · have hmem := ih.2 v hv' p hvp msg hmsg
        simpa [processCityUsers, hop] using hmem
    | some prefs =>
      cases hchk : check_alert_conditions w prefs with
      | none =>
        refine ⟨by simpa [processCityUsers, hop, hchk] using ih.1, ?_⟩
        intro v hv p hvp msg hmsg
        rcases List.mem_cons.mp hv with rfl | hv'
        · rw [hvp] at hop
          have hpp : p = prefs := by simpa using hop
          subst hpp
          rw [hchk] at hmsg
          simp at hmsg
        · have hmem := ih.2 v hv' p hvp msg hmsg
          simpa [processCityUsers, hop, hchk] using hmem
      | some msg0 =>
        cases hsend : env.sendAlert u.email city msg0 with
        | error e =>
          refine ⟨by simpa [processCityUsers, hop, hchk, hsend] using ih.1, ?_⟩
          intro v hv p hvp msg hmsg
          rcases List.mem_cons.mp hv with rfl | hv'
          · right
            simp [processCityUsers, hop, hchk, hsend]
          · have hmem := ih.2 v hv' p hvp msg hmsg
            rcases hmem with hm | hm
            · left
              simp only [processCityUsers, hop, hchk, hsend]
              exact List.mem_cons_of_mem _ hm
            · right
              simp only [processCityUsers, hop, hchk, hsend]
              exact List.mem_cons_of_mem _ hm
        | ok u' =>
          have hlog := hl u.id "temperature" msg0
          refine ⟨by simpa [processCityUsers, hop, hchk, hsend, hlog] using ih.1, ?_⟩
          intro v hv p hvp msg hmsg
          rcases List.mem_cons.mp hv with rfl | hv'
          · rw [hvp] at hop
            have hpp : p = prefs := by simpa using hop
            subst hpp
            rw [hchk] at hmsg
            have hmm : msg = msg0 := by simpa using hmsg.symm
            subst hmm
            left
            simp [processCityUsers, hvp, hchk, hsend, hlog]
          · have hmem := ih.2 v hv' p hvp msg hmsg
            rcases hmem with hm | hm
            · left
              simp only [processCityUsers, hop, hchk, hsend, hlog]
              exact List.mem_cons_of_mem _ (List.mem_cons_of_mem _ hm)
            · right
              simp only [processCityUsers, hop, hchk, hsend, hlog]
              exact List.mem_cons_of_mem _ (List.mem_cons_of_mem _ hm)

theorem processCities_ok (env : Env)
    (hs : ∀ w, env.storeWeather w = .ok ())
    (hu : ∀ c, ∃ us, env.usersByCity c = .ok us)
    (hp : ∀ uid, ∃ op, env.getPrefs uid = .ok op)
    (hl : ∀ uid k m, env.logAlert uid k m = .ok ()) :
    ∀ cs : List CityInfo,
      (processCities env cs).2 = none ∧
      ∀ c ∈ cs,
        (∀ err, env.fetch c.city c.country = .error err →
          Event.fetchFailed c.city ∈ (processCities env cs).1) ∧
        (∀ w, env.fetch c.city c.country = .ok w →
          Event.storedWeather w ∈ (processCities env cs).1 ∧
          ∀ us, env.usersByCity c.city = .ok us → ∀ u ∈ us,
            ∀ p, env.getPrefs u.id = .ok (some p) →
            ∀ msg, check_alert_conditions w p = some msg →
              Event.emailSent u.email c.city msg ∈ (processCities env cs).1 ∨
              Event.emailFailed u.email ∈ (processCities env cs).1) := by
  intro cs
  induction cs with
  | nil => exact ⟨rfl, by simp⟩
  | cons c rest ih =>
    cases hf : env.fetch c.city c.country with
    | error err0 =>
      refine ⟨by simpa [processCities, hf] using ih.1, ?_⟩
      intro d hd
      rcases List.mem_cons.mp hd with rfl | hd'
      · constructor
        · intro err _
          simp [processCities, hf]
        · intro w hw
          rw [hw] at hf
          simp at hf
      · have hdrec := ih.2 d hd'
        refine ⟨?_, ?_⟩
        · intro err herr
          simp only [processCities, hf]
          exact List.mem_cons_of_mem _ (hdrec.1 err herr)
        · intro w hw
          have hst := hdrec.2 w hw
          refine ⟨?_, ?_⟩
          · simp only [processCities, hf]
            exact List.mem_cons_of_mem _ hst.1
          · intro us hus u huu p hpp msg hmsg
            rcases hst.2 us hus u huu p hpp msg hmsg with hm | hm
            · left
              simp only [processCities, hf]
              exact List.mem_cons_of_mem _ hm
            · right
              simp only [processCities, hf]
              exact List.mem_cons_of_mem _ hm
    | ok w0 =>
      have hsw := hs w0
      obtain ⟨us0, hus0⟩ := hu c.city
      have hinner := processCityUsers_ok env w0 c.city hp hl us0
      have heq : processCities env (c :: rest)
          = ((Event.storedWeather w0) ::
              ((processCityUsers env w0 c.city us0).1 ++ (processCities env rest).1),
            (processCities env rest).2) := by
        simp [processCities, hf, hsw, hus0, hinner.1]
      refine ⟨by rw [heq]; exact ih.1, ?_⟩
      intro d hd
      rcases List.mem_cons.mp hd with rfl | hd'
      · constructor
        · intro err herr
          rw [herr] at hf
          simp at hf
        · intro w hw
          have hww : w = w0 := by rw [hw] at hf; simpa using hf
          subst hww
          refine ⟨by rw [heq]; exact List.mem_cons_self _ _, ?_⟩
          intro us hus u huu p hpp msg hmsg
          have husus : us = us0 := by rw [hus] at hus0; simpa using hus0
          subst husus
          rcases hinner.2 u huu p hpp msg hmsg with hm | hm
          · left
            rw [heq]
            exact List.mem_cons_of_mem _ (List.mem_append_left _ hm)
          · right
            rw [heq]
            exact List.mem_cons_of_mem _ (List.mem_append_left _ hm)
      · have hdrec := ih.2 d hd'
        refine ⟨?_, ?_⟩
        · intro err herr
          rw [heq]
          exact List.mem_cons_of_mem _ (List.mem_append_right _ (hdrec.1 err herr))
        · intro w hw
          have hst := hdrec.2 w hw
          refine ⟨?_, ?_⟩
          · rw [heq]
            exact List.mem_cons_of_mem _ (List.mem_append_right _ hst.1)
          · intro us hus u huu p hpp msg hmsg
            rcases hst.2 us hus u huu p hpp msg hmsg with hm | hm
            · left
              rw [heq]
              exact List.mem_cons_of_mem _ (List.mem_append_right _ hm)
            · right
              rw [heq]
              exact List.mem_cons_of_mem _ (List.mem_append_right _ hm)

/-- C1: when no Store operation fails, a fetch failure for one city, a
rejected alert email, or a missing preferences row never stops the pass: the
pass finishes without error, every listed city is fetched (a failing fetch
leaves its log event, a successful one its stored observation), and every
user of a fetched city whose preferences match has an alert email attempted
(sent or failed). -/
theorem fetch_and_alert_failure_isolation (env : Env) (h : storeNeverFails env) :
    (fetch_and_alert env).2 = none ∧
    ∀ cs, env.listCities = .ok cs → ∀ c ∈ cs,
      (∀ err, env.fetch c.city c.country = .error err →
        Event.fetchFailed c.city ∈ (fetch_and_alert env).1) ∧
      (∀ w, env.fetch c.city c.country = .ok w →
        Event.storedWeather w ∈ (fetch_and_alert env).1 ∧
        ∀ us, env.usersByCity c.city = .ok us → ∀ u ∈ us,
          ∀ p, env.getPrefs u.id = .ok (some p) →
          ∀ msg, check_alert_conditions w p = some msg →
            Event.emailSent u.email c.city msg ∈ (fetch_and_alert env).1 ∨
            Event.emailFailed u.email ∈ (fetch_and_alert env).1) := by
  obtain ⟨⟨cs0, hcs0⟩, hs, hu, hp, hl⟩ := h
  have main := processCities_ok env hs hu hp hl cs0
  have hfa : fetch_and_alert env = processCities env cs0 := by
    simp [fetch_and_alert, hcs0]
  refine ⟨by rw [hfa]; exact main.1, ?_⟩
  intro cs hcs c hc
  have hcc : cs = cs0 := by rw [hcs] at hcs0; simpa using hcs0
  subst hcc
  rw [hfa]
  exact main.2 c hc

/-- Witness for C1 in scenario S5: city A's fetch fails with a protocol
error, yet the pass ends without error, A's failure is only logged, and
Alice in city B still has her alert email attempted. -/
theorem fetch_and_alert_failure_isolation_witness :
    (fetch_and_alert env1).2 = none ∧
    Event.fetchFailed "A" ∈ (fetch_and_alert env1).1 ∧
    (Event.emailSent "alice@x.io" "B" (highTempMsg 32 30) ∈ (fetch_and_alert env1).1 ∨
      Event.emailFailed "alice@x.io" ∈ (fetch_and_alert env1).1) := by
  have h : storeNeverFails env1 :=
    ⟨⟨[cityA, cityB], rfl⟩, fun _ => rfl, fun c => ⟨_, rfl⟩, fun uid => ⟨_, rfl⟩,
      fun _ _ _ => rfl⟩
  have H := fetch_and_alert_failure_isolation env1 h
  refine ⟨H.1, ?_, ?_⟩
  · exact (H.2 [cityA, cityB] rfl cityA (by simp)).1
      (.WeatherApi "API returned status 500: boom") rfl
  · exact ((H.2 [cityA, cityB] rfl cityB (by simp)).2 wB rfl).2
      [alice] rfl alice (by simp) prefsMax30 rfl (highTempMsg 32 30) (by decide)

theorem processCityUsers_append (env : Env) (w : WeatherData) (city : String)
    (xs ys : List User)
    (h : (processCityUsers env w city xs).2 = none) :
    processCityUsers env w city (xs ++ ys)
      = ((processCityUsers env w city xs).1 ++ (processCityUsers env w city ys).1,
        (processCityUsers env w city ys).2) := by
  induction xs with
  | nil => simp [processCityUsers]
  | cons u rest ih =>
    cases hgp : env.getPrefs u.id with
    | error e => simp [processCityUsers, hgp] at h
    | ok op =>
      cases op with
      | none =>
        have h' : (processCityUsers env w city rest).2 = none := by
          simpa [processCityUsers, hgp] using h
        simp [processCityUsers, hgp, ih h']
      | some prefs =>
        cases hchk : check_alert_conditions w prefs with
        | none =>
          have h' : (processCityUsers env w city rest).2 = none := by
            simpa [processCityUsers, hgp, hchk] using h
          simp [processCityUsers, hgp, hchk, ih h']
        | some msg =>
          cases hsend : env.sendAlert u.email city msg with
          | error e =>
            have h' : (processCityUsers env w city rest).2 = none := by
              simpa [processCityUsers, hgp, hchk, hsend] using h
            simp [processCityUsers, hgp, hchk, hsend, ih h']
          | ok u' =>
            cases hlog : env.logAlert u.id "temperature" msg with
            | error e => simp [processCityUsers, hgp, hchk, hsend, hlog] at h
            | ok u'' =>
              have h' : (processCityUsers env w city rest).2 = none := by
                simpa [processCityUsers, hgp, hchk, hsend, hlog] using h
              simp [processCityUsers, hgp, hchk, hsend, hlog, ih h']

theorem processCities_append (env : Env) (xs ys : List CityInfo)
    (h : (processCities env xs).2 = none) :
    processCities env (xs ++ ys)
      = ((processCities env xs).1 ++ (processCities env ys).1,
        (processCities env ys).2) := by
  induction xs with
  | nil => simp [processCities]
  | cons c rest ih =>
    cases hf : env.fetch c.city c.country with
    | error e =>
      have h' : (processCities env rest).2 = none := by
        simpa [processCities, hf] using h
      simp [processCities, hf, ih h']
    | ok w =>
      cases hsw : env.storeWeather w with
      | error e => simp [processCities, hf, hsw] at h
      | ok u' =>
        cases hus : env.usersByCity c.city with
        | error e => simp [processCities, hf, hsw, hus] at h
        | ok users =>
          cases hpe : (processCityUsers env w c.city users).2 with
          | some e => simp [processCities, hf, hsw, hus, hpe] at h
          | none =>
            have h' : (processCities env rest).2 = none := by
              simpa [processCities, hf, hsw, hus, hpe] using h
            simp [processCities, hf, hsw, hus, hpe, ih h', List.append_assoc]

/-- C2 counterexample: in `env2` the store of city A's observation fails;
the pass aborts with the database error and city B — whose fetch and store
would both succeed — is never fetched nor stored, so the pass does not
continue with the next city. -/
theorem store_failure_stops_next_city_counterexample :
    fetch_and_alert env2 = ([], some (AppError.Database SqlxError.Other)) ∧
    Event.storedWeather wB ∉ (fetch_and_alert env2).1 ∧
    Event.fetchFailed "B" ∉ (fetch_and_alert env2).1 ∧
    env2.storeWeather wB = .ok () ∧
    env2.fetch "B" "GB" = .ok wB := by
  decide

/-- C2 as amended: a Store failure aborts the remainder of the pass, not
just the current city — whichever of the four Store calls fails
(`store_weather_data`, `get_users_by_city`, `get_user_preferences`, or
`log_alert`), the `?` operator propagates the error out of
`fetch_and_alert`; cities processed before the failure keep their effects
and no later city (nor later user) is processed. -/
theorem store_failure_aborts_pass (env : Env) (pre : List CityInfo) (c : CityInfo)
    (rest : List CityInfo)
    (hcs : env.listCities = .ok (pre ++ c :: rest))
    (hpre : (processCities env pre).2 = none) :
    ∀ w, env.fetch c.city c.country = .ok w →
      (∀ e, env.storeWeather w = .error e →
        fetch_and_alert env = ((processCities env pre).1, some e)) ∧
      (env.storeWeather w = .ok () →
        (∀ e, env.usersByCity c.city = .error e →
          fetch_and_alert env
            = ((processCities env pre).1 ++ [Event.storedWeather w], some e)) ∧
        (∀ us, env.usersByCity c.city = .ok us →
          ∀ upre u urest, us = upre ++ u :: urest →
            (processCityUsers env w c.city upre).2 = none →
            (∀ e, env.getPrefs u.id = .error e →
              fetch_and_alert env
                = ((processCities env pre).1 ++
                    Event.storedWeather w :: (processCityUsers env w c.city upre).1,
                  some e)) ∧
            (∀ p msg e, env.getPrefs u.id = .ok (some p) →
              check_alert_conditions w p = some msg →
              env.sendAlert u.email c.city msg = .ok () →
              env.logAlert u.id "temperature" msg = .error e →
              fetch_and_alert env
                = ((processCities env pre).1 ++
                    Event.storedWeather w ::
                      ((processCityUsers env w c.city upre).1 ++
                        [Event.emailSent u.email c.city msg]),
                  some e)))) := by
  intro w hf
  have happ := processCities_append env pre (c :: rest) hpre
  have hfa : fetch_and_alert env
      = ((processCities env pre).1 ++ (processCities env (c :: rest)).1,
        (processCities env (c :: rest)).2) := by
    simp [fetch_and_alert, hcs, happ]
  refine ⟨?_, ?_⟩
  · intro e hsw
    have h1 : processCities env (c :: rest) = ([], some e) := by
      simp [processCities, hf, hsw]
    rw [hfa, h1]
    simp
  · intro hsw
    refine ⟨?_, ?_⟩
    · intro e hus
      have h1 : processCities env (c :: rest) = ([Event.storedWeather w], some e) := by
        simp [processCities, hf, hsw, hus]
      rw [hfa, h1]
    · intro us hus upre u urest hsplit hupre
      refine ⟨?_, ?_⟩
      · intro e hgp
        have hu1 : processCityUsers env w c.city (u :: urest) = ([], some e) := by
          simp [processCityUsers, hgp]
        have hu2 : processCityUsers env w c.city us
            = ((processCityUsers env w c.city upre).1, some e) := by
          rw [hsplit, processCityUsers_append env w c.city upre (u :: urest) hupre, hu1]
          simp
        have h1 : processCities env (c :: rest)
            = (Event.storedWeather w :: (processCityUsers env w c.city upre).1,
              some e) := by
          simp [processCities, hf, hsw, hus, hu2]
        rw [hfa, h1]
      · intro p msg e hgp hchk hsend hlog
        have hu1 : processCityUsers env w c.city (u :: urest)
            = ([Event.emailSent u.email c.city msg], some e) := by
          simp [processCityUsers, hgp, hchk, hsend, hlog]
        have hu2 : processCityUsers env w c.city us
            = ((processCityUsers env w c.city upre).1 ++
                [Event.emailSent u.email c.city msg], some e) := by
          rw [hsplit, processCityUsers_append env w c.city upre (u :: urest) hupre, hu1]
        have h1 : processCities env (c :: rest)
            = (Event.storedWeather w ::
                ((processCityUsers env w c.city upre).1 ++
                  [Event.emailSent u.email c.city msg]),
              some e) := by
          simp [processCities, hf, hsw, hus, hu2]
        rw [hfa, h1]

/-- Witness for the amended C2 theorem, one environment per failing Store
operation: the store of the observation (`env2`), the user listing (`env3`),
the preferences lookup (`env4`) and the alert log (`env5`) each abort the
pass with the database error, keeping only the effects already committed. -/
theorem store_failure_aborts_pass_witness :
    fetch_and_alert env2 = ([], some (AppError.Database SqlxError.Other)) ∧
    fetch_and_alert env3
      = ([Event.storedWeather wA], some (AppError.Database SqlxError.Other)) ∧
    fetch_and_alert env4
      = ([Event.storedWeather wA], some (AppError.Database SqlxError.Other)) ∧
    fetch_and_alert env5
      = ([Event.storedWeather wB,
          Event.emailSent "alice@x.io" "B" (highTempMsg 32 30)],
        some (AppError.Database SqlxError.Other)) := by
  refine ⟨?_, ?_, ?_, ?_⟩
  · have h := (store_failure_aborts_pass env2 [] cityA [cityB] rfl rfl wA rfl).1
      (AppError.Database SqlxError.Other) rfl
    simpa using h
  · have h := ((store_failure_aborts_pass env3 [] cityA [cityB] rfl rfl wA rfl).2 rfl).1
      (AppError.Database SqlxError.Other) rfl
    simpa using h
  · have h := ((((store_failure_aborts_pass env4 [] cityA [cityB] rfl rfl wA rfl).2
        rfl).2 [alice] rfl) [] alice [] rfl rfl).1
      (AppError.Database SqlxError.Other) rfl
    simpa using h
  · have h := ((((store_failure_aborts_pass env5 [] cityB [cityA] rfl rfl wB rfl).2
        rfl).2 [alice] rfl) [] alice [] rfl rfl).2
      prefsMax30 (highTempMsg 32 30) (AppError.Database SqlxError.Other)
      rfl (by decide) rfl rfl
    simpa using h

end WA
